import Mathlib

/-!
# Shallow embedding of `i2c_relays.py`

The source drives a Grove 4-channel SPDT relay board over I2C.  A
`RelayBoard` object keeps a mirrored register value `self.state` and, on
every mutation, writes it to the hardware register through `smbus2`
(`set_state`).  `switch` / `turn_on` / `turn_off` validate the channel id
against `ALLOWED_IDS` and then call `set_state` with the XOR / OR /
AND-NOT of the current state and `2**(id-1)`.  `kill` loops `turn_off`
over all allowed ids.  A `Relay` is a thin handle over one channel of a
shared board; `cycle` turns it on, sleeps, and turns it off.

The embedding makes the two effects explicit that the Python hides:
* the bus: a `Bus` assigns to each write attempt (numbered in order) a
  success bit; a failing write raises, as `smbus2` would;
* mutation vs. exceptions: a Python method that raises still leaves its
  earlier field assignments in place, so every operation returns the
  final object state *and* an optional raised error.
All attempted writes are logged in order so that claims about the number
and order of bus transactions can be stated.
-/

namespace I2CRelays

set_option linter.unusedVariables false

/-- `RELAY_I2C_ADRESS = 0x11` from the source. -/
def RELAY_I2C_ADRESS : Nat := 0x11

/-- `RELAY_REGISTER = 0x10` from the source. -/
def RELAY_REGISTER : Nat := 0x10

/-- `ALLOWED_IDS = [1, 2, 3, 4]` from the source. -/
def ALLOWED_IDS : List Nat := [1, 2, 3, 4]

/-- Errors a call can raise.  `invalidChannel` is the
`Exception(f"ID not in {self.allowed_ids = }")` raised by the id check
(the spec's `InvalidChannel`); `busWriteError` is an I/O error raised by
`bus.write_byte_data` (the spec's `BusWriteError`); `interrupted` is an
asynchronous exception (e.g. `KeyboardInterrupt`) delivered during
`time.sleep`. -/
inductive RelayError where
  | invalidChannel : RelayError
  | busWriteError : RelayError
  | interrupted : RelayError
deriving DecidableEq, Repr

/-- Bus behaviour: `bus n = true` iff the `n`-th write transaction (counting
attempted writes from 0) succeeds.  Models the `smbus2` transport, which is
external to the source. -/
def Bus : Type := Nat → Bool

/-- The mutable fields of a `RelayBoard` object, plus the trace of the
values of all attempted bus writes, oldest first.  `state` starts at
`0b0000` (class attribute), `persistent` is the constructor flag.  The
fixed fields `_relay_I2C_adress`, `_relay_I2C_register` and `allowed_ids`
are the constants above. -/
structure St where
  state : Nat
  persistent : Bool
  writes : List Nat
deriving DecidableEq, Repr

/-- Result of one method call: the object state after the call (a Python
object keeps the field assignments made before an exception) together with
the raised error, if any. -/
abbrev OpResult : Type := St × Option RelayError

/-- Python's `state & ~2**k` on a nonnegative `state`: since `~m = -(m+1)`
in Python's arbitrary-precision integers, the AND clears exactly bit `k`,
i.e. it XORs away the bit `k` that `state` has.  (See
`pyClearBit_eq_ldiff` below: this is bitwise set difference with `2^k`.) -/
def pyClearBit (state k : Nat) : Nat :=
  state ^^^ (state &&& 2 ^ k)

/--
```python
def set_state(self, state: int) -> None:
    self.state = state
    with SMBus(1) as bus:
        bus.write_byte_data(self._relay_I2C_adress, self._relay_I2C_register, self.state)
```
`self.state` is assigned *before* the bus write; the write is attempted,
and if it fails the error propagates while the assignment stays. -/
def set_state (bus : Bus) (s : St) (state : Nat) : OpResult :=
  let s1 : St := { s with state := state, writes := s.writes ++ [state] }
  if bus s.writes.length then (s1, none) else (s1, some RelayError.busWriteError)

/--
```python
def switch(self, id: int) -> None:
    if id not in self.allowed_ids:
        raise Exception(f"ID not in {self.allowed_ids = }")
    self.set_state(self.state ^ 2**(id-1))
```
-/
def switch (bus : Bus) (s : St) (id : Nat) : OpResult :=
  if id ∉ ALLOWED_IDS then (s, some RelayError.invalidChannel)
  else set_state bus s (s.state ^^^ 2 ^ (id - 1))

/--
```python
def turn_on(self, id: int) -> None:
    if id not in self.allowed_ids:
        raise Exception(f"ID not in {self.allowed_ids = }")
    self.set_state(self.state | 2**(id-1))
```
-/
def turn_on (bus : Bus) (s : St) (id : Nat) : OpResult :=
  if id ∉ ALLOWED_IDS then (s, some RelayError.invalidChannel)
  else set_state bus s (s.state ||| 2 ^ (id - 1))

/--
```python
def turn_off(self, id: int) -> None:
    if id not in self.allowed_ids:
        raise Exception(f"ID not in {self.allowed_ids = }")
    self.set_state(self.state & ~2**(id-1))
```
-/
def turn_off (bus : Bus) (s : St) (id : Nat) : OpResult :=
  if id ∉ ALLOWED_IDS then (s, some RelayError.invalidChannel)
  else set_state bus s (pyClearBit s.state (id - 1))

/--
```python
def get_state(self) -> int:
    return self.state
```
-/
def get_state (s : St) : Nat :=
  s.state

/-- The body of `kill`'s `for id in self.allowed_ids` loop: each
`turn_off` is run in order; an exception raised by one of them aborts the
loop and propagates. -/
def killAux (bus : Bus) (s : St) : List Nat → OpResult
  | [] => (s, none)
  | id :: rest =>
    match turn_off bus s id with
    | (s1, none) => killAux bus s1 rest
    | (s1, some e) => (s1, some e)

/--
```python
def kill(self):
    for id in self.allowed_ids:
        self.turn_off(id)
```
-/
def kill (bus : Bus) (s : St) : OpResult :=
  killAux bus s ALLOWED_IDS

/--
```python
def __init__(self, initial_state: int = 0b0000, persistent: bool = False) -> None:
    self._relay_I2C_adress = RELAY_I2C_ADRESS
    self._relay_I2C_register = RELAY_REGISTER
    self.allowed_ids = ALLOWED_IDS
    self.persistent = persistent
    self.set_state(initial_state)
```
No range check on `initial_state`; the class attribute `state = 0b0000`
is the value before `set_state` runs. -/
def RelayBoard.init (bus : Bus) (initial_state : Nat) (persistent : Bool) : OpResult :=
  set_state bus { state := 0, persistent := persistent, writes := [] } initial_state

/-- A `Relay` handle: a validated channel id over a shared board. -/
structure Relay where
  id : Nat
deriving DecidableEq, Repr

/-- `Relay.on`: `return self.relays.turn_on(self.id)`. -/
def Relay.on (bus : Bus) (r : Relay) (s : St) : OpResult :=
  turn_on bus s r.id

/-- `Relay.off`: `return self.relays.turn_off(self.id)`. -/
def Relay.off (bus : Bus) (r : Relay) (s : St) : OpResult :=
  turn_off bus s r.id

/-- `Relay.toggle`: `return self.relays.switch(self.id)`. -/
def Relay.toggle (bus : Bus) (r : Relay) (s : St) : OpResult :=
  switch bus s r.id

/--
```python
def cycle(self, duration : float) -> None:
    self.on()
    time.sleep(duration)
    self.off()
```
Straight-line code, no `try`/`finally`.  The sleep's wall-clock effect is
irrelevant to the state, so `duration` is carried only as data;
`sleepInterrupted` tells whether an asynchronous exception is delivered
during `time.sleep` — if so it propagates and `self.off()` never runs. -/
def Relay.cycle (bus : Bus) (r : Relay) (s : St) (duration : ℚ)
    (sleepInterrupted : Bool) : OpResult :=
  match Relay.on bus r s with
  | (s1, some e) => (s1, some e)
  | (s1, none) =>
    if sleepInterrupted then (s1, some RelayError.interrupted)
    else Relay.off bus r s1

/--
```python
def get_state(self):
    return "On" if self.relays.get_state() & 2**(self.id-1) else "Off"
```
-/
def Relay.get_state (r : Relay) (s : St) : String :=
  if I2CRelays.get_state s &&& 2 ^ (r.id - 1) ≠ 0 then "On" else "Off"

/-- A bus whose writes always succeed. -/
def busOK : Bus := fun _ => true

/-- A bus whose `k`-th write attempt fails and all others succeed. -/
def busFailAt (k : Nat) : Bus := fun n => n != k

/-- A bus whose writes always fail. -/
def busFail : Bus := fun _ => false

/-! ## Helper lemmas (shared) -/

/-- Whatever the bus does, `set_state` assigns the new value and logs one
write attempt; only the raised error differs. -/
theorem set_state_fst (bus : Bus) (s : St) (v : Nat) :
    (set_state bus s v).1 = { s with state := v, writes := s.writes ++ [v] } := by
  unfold set_state
  split <;> rfl

/-- `pyClearBit` is bitwise set difference with `2^k`: it embeds
`state & ~2**k` faithfully. -/
theorem pyClearBit_eq_ldiff (n k : Nat) :
    pyClearBit n k = Nat.ldiff n (2 ^ k) := by
  apply Nat.eq_of_testBit_eq
  intro j
  rcases eq_or_ne j k with hjk | hjk
  · subst hjk
    simp [pyClearBit, Nat.testBit_xor, Nat.testBit_and, Nat.testBit_ldiff,
      Nat.testBit_two_pow_self]
  · simp [pyClearBit, Nat.testBit_xor, Nat.testBit_and, Nat.testBit_ldiff,
      Nat.testBit_two_pow_of_ne (Ne.symm hjk)]

/-- Bit view of `pyClearBit`: bit `k` is cleared, every other bit kept. -/
theorem testBit_pyClearBit (n k j : Nat) :
    (pyClearBit n k).testBit j = (n.testBit j && !((2 ^ k : Nat).testBit j)) := by
  rcases eq_or_ne j k with hjk | hjk
  · subst hjk
    simp [pyClearBit, Nat.testBit_xor, Nat.testBit_and, Nat.testBit_two_pow_self]
  · simp [pyClearBit, Nat.testBit_xor, Nat.testBit_and,
      Nat.testBit_two_pow_of_ne (Ne.symm hjk)]

/-! ## Claim C1 -/

/-- Claim C1 as stated is false: `set_state` assigns `self.state` *before*
the bus write, so on a bus that fails, `set_state(5)` from stored value `0`
raises `busWriteError` yet `get_state` afterwards returns `5`, not the
pre-call value `0`. -/
theorem set_state_fail_counterexample :
    (set_state busFail ⟨0, false, []⟩ 5).2 = some RelayError.busWriteError ∧
    get_state (set_state busFail ⟨0, false, []⟩ 5).1 = 5 ∧
    get_state (⟨0, false, []⟩ : St) = 0 :=
  ⟨rfl, rfl, rfl⟩

/-- Claim C1 (amended): if the bus write performed by `set_mask(m)` fails,
the call fails with `BusWriteError`, but the stored `register_value` has
already been updated to `m` before the write is attempted, so `get_mask()`
afterwards returns `m`, not its pre-call value: the in-memory value is
updated whether or not the write succeeds. -/
theorem set_state_fail_busWriteError (bus : Bus) (s : St) (v : Nat)
    (h : bus s.writes.length = false) :
    set_state bus s v =
      ({ s with state := v, writes := s.writes ++ [v] }, some RelayError.busWriteError) := by
  simp [set_state, h]

/-- Witness for `set_state_fail_busWriteError` at a concrete input. -/
theorem set_state_fail_busWriteError_witness :
    busFail (⟨0, false, []⟩ : St).writes.length = false ∧
    set_state busFail ⟨0, false, []⟩ 5 = (⟨5, false, [5]⟩, some RelayError.busWriteError) :=
  ⟨rfl, set_state_fail_busWriteError busFail ⟨0, false, []⟩ 5 rfl⟩

/-! ## Claim C2 -/

/-- Claim C2 as stated is false: `kill` is not best-effort.  With all four
relays on (mask `0b1111`) and a bus whose second write attempt fails,
the failing write for channel 2 aborts the loop: only two writes are ever
attempted (channels 1 and 2), the single `busWriteError` propagates with no
aggregation, and channels 3 and 4 are left energized (state `0b1100`). -/
theorem kill_abort_counterexample :
    kill (busFailAt 1) ⟨15, false, []⟩ =
      (⟨12, false, [14, 12]⟩, some RelayError.busWriteError) ∧
    (kill (busFailAt 1) ⟨15, false, []⟩).1.writes.length = 2 :=
  ⟨rfl, rfl⟩

/-- Claim C2 (amended): `kill` turns off every channel in `{1,2,3,4}`
individually in ascending id order — with an always-succeeding bus it
performs exactly four writes, each clearing the next channel's bit, and
ends with mask `0`; but it is not best-effort: a failing write raises out
of the loop, so the remaining channels are not attempted and no aggregate
of failures is collected. -/
theorem kill_busOK_all_off (m : Nat) (hm : m < 16) (p : Bool) (w : List Nat) :
    kill busOK ⟨m, p, w⟩ =
      (⟨0, p, w ++ [pyClearBit m 0, pyClearBit (pyClearBit m 0) 1,
        pyClearBit (pyClearBit (pyClearBit m 0) 1) 2, 0]⟩, none) := by
  interval_cases m <;>
    simp [kill, killAux, turn_off, set_state, pyClearBit, ALLOWED_IDS, busOK] <;> decide

/-- Witness for `kill_busOK_all_off` at a concrete input. -/
theorem kill_busOK_all_off_witness :
    (5 : Nat) < 16 ∧ kill busOK ⟨5, false, []⟩ = (⟨0, false, [4, 4, 0, 0]⟩, none) :=
  ⟨by decide, kill_busOK_all_off 5 (by decide) false []⟩

/-! ## Claim C3 -/

/-- Claim C3 as stated is false: `cycle` has no `try`/`finally`, so if the
sleep is interrupted, `off()` never runs.  On a fresh board (one
construction write of `0`), `cycle(0.0)` on channel 1 with an interrupted
sleep performs only the on-write, propagates the interruption, and leaves
the relay reading `"On"`. -/
theorem cycle_interrupted_counterexample :
    Relay.cycle busOK ⟨1⟩ (RelayBoard.init busOK 0 false).1 0 true =
      (⟨1, false, [0, 1]⟩, some RelayError.interrupted) ∧
    Relay.get_state ⟨1⟩
      (Relay.cycle busOK ⟨1⟩ (RelayBoard.init busOK 0 false).1 0 true).1 = "On" :=
  ⟨rfl, rfl⟩

/-- Claim C3 (amended): `cycle(duration)` calls `on()`, suspends for the
duration, then calls `off()` — but only on the normal path, since there is
no cleanup handler: when the suspension completes (for any `duration ≥ 0`,
`0.0` included) on a fresh board, the relay ends in state `Off` and exactly
two bus writes are performed by the cycle (the on-write of `2^(id-1)`,
then the off-write of `0`); if the suspension is interrupted, `off()` does
not run and the relay stays energized. -/
theorem cycle_uninterrupted_two_writes_off (duration : ℚ) (hd : 0 ≤ duration)
    (id : Nat) (hid : id ∈ ALLOWED_IDS) :
    Relay.cycle busOK ⟨id⟩ (RelayBoard.init busOK 0 false).1 duration false =
      (⟨0, false, [0, 2 ^ (id - 1), 0]⟩, none) ∧
    Relay.get_state ⟨id⟩ (⟨0, false, [0, 2 ^ (id - 1), 0]⟩ : St) = "Off" := by
  fin_cases hid <;> exact ⟨rfl, rfl⟩

/-- Witness for `cycle_uninterrupted_two_writes_off` at a concrete input. -/
theorem cycle_uninterrupted_two_writes_off_witness :
    (0 : ℚ) ≤ 0 ∧ 1 ∈ ALLOWED_IDS ∧
    (Relay.cycle busOK ⟨1⟩ (RelayBoard.init busOK 0 false).1 0 false =
      (⟨0, false, [0, 1, 0]⟩, none) ∧
    Relay.get_state ⟨1⟩ (⟨0, false, [0, 1, 0]⟩ : St) = "Off") :=
  ⟨le_refl 0, by decide, cycle_uninterrupted_two_writes_off 0 (le_refl 0) 1 (by decide)⟩

/-! ## Claim C4 -/

/-- Claim C4 as stated is false: the constructor performs no range check.
Constructing a board with `initial_state = 16` (outside 0–15) raises no
error at all — in particular no `InvalidMask` — and performs a hardware
write of the out-of-range value `16`. -/
theorem init_no_mask_validation_counterexample :
    RelayBoard.init busOK 16 false = (⟨16, false, [16]⟩, none) ∧
    (RelayBoard.init busOK 16 false).2 = none ∧
    (RelayBoard.init busOK 16 false).1.writes = [16] :=
  ⟨rfl, rfl, rfl⟩

/-- Claim C4 (amended): construction never validates `initial_mask`: for
every initial mask (in range or not) and a successful bus, it performs
exactly one hardware write, of that mask verbatim, stores it, and raises no
error.  (For an in-range mask this matches the claim's second half.) -/
theorem init_one_write (initial_state : Nat) (persistent : Bool) :
    RelayBoard.init busOK initial_state persistent =
      (⟨initial_state, persistent, [initial_state]⟩, none) :=
  rfl

/-! ## Claim C5 -/

/-- Claim C5 as stated is false: `set_state` does no clamping, so
`set_state(255)` stores `255` and `get_state` then returns `255`,
outside 0–15. -/
theorem state_not_nibble_counterexample :
    get_state (set_state busOK ⟨0, false, []⟩ 255).1 = 255 ∧
    ¬ get_state (set_state busOK ⟨0, false, []⟩ 255).1 < 16 :=
  ⟨rfl, by decide⟩

/-- Claim C5 (amended): the stored state is a 4-bit value (0–15) as long
as it is only mutated through the channel operations: if the current state
is in 0–15 then after `switch`, `turn_on` or `turn_off` — any channel id,
valid or not, and any bus outcome — it is still in 0–15.  The invariant is
not enforced by `set_state` or the constructor, which store arbitrary
caller-supplied values unchanged. -/
theorem channel_ops_preserve_nibble (bus : Bus) (m : Nat) (hm : m < 16)
    (p : Bool) (w : List Nat) (id : Nat) :
    get_state (switch bus ⟨m, p, w⟩ id).1 < 16 ∧
    get_state (turn_on bus ⟨m, p, w⟩ id).1 < 16 ∧
    get_state (turn_off bus ⟨m, p, w⟩ id).1 < 16 := by
  by_cases hid : id ∈ ALLOWED_IDS
  · fin_cases hid <;>
      (refine ⟨?_, ?_, ?_⟩ <;>
        simp [switch, turn_on, turn_off, ALLOWED_IDS, set_state_fst, get_state,
          pyClearBit] <;>
        interval_cases m <;> decide)
  · refine ⟨?_, ?_, ?_⟩ <;> simp [switch, turn_on, turn_off, hid, get_state] <;> exact hm

/-- Witness for `channel_ops_preserve_nibble` at a concrete input. -/
theorem channel_ops_preserve_nibble_witness :
    (15 : Nat) < 16 ∧
    (get_state (switch busOK ⟨15, false, []⟩ 3).1 < 16 ∧
     get_state (turn_on busOK ⟨15, false, []⟩ 3).1 < 16 ∧
     get_state (turn_off busOK ⟨15, false, []⟩ 3).1 < 16) :=
  ⟨by decide, channel_ops_preserve_nibble busOK 15 (by decide) false [] 3⟩

/-! ## Claim C6 -/

/-- Claim C6: for a channel id outside `{1,2,3,4}`, `switch`, `turn_on`
and `turn_off` all fail with the invalid-channel error and return the
object untouched: the stored state (`get_state`) is unchanged and the
write trace is unchanged, so the bus was never reached. -/
theorem invalid_channel_rejected (bus : Bus) (s : St) (id : Nat)
    (hid : id ∉ ALLOWED_IDS) :
    switch bus s id = (s, some RelayError.invalidChannel) ∧
    turn_on bus s id = (s, some RelayError.invalidChannel) ∧
    turn_off bus s id = (s, some RelayError.invalidChannel) := by
  simp [switch, turn_on, turn_off, hid]

/-- Witness for `invalid_channel_rejected` at a concrete input. -/
theorem invalid_channel_rejected_witness :
    (5 : Nat) ∉ ALLOWED_IDS ∧
    (switch busOK ⟨0, false, []⟩ 5 = (⟨0, false, []⟩, some RelayError.invalidChannel) ∧
     turn_on busOK ⟨0, false, []⟩ 5 = (⟨0, false, []⟩, some RelayError.invalidChannel) ∧
     turn_off busOK ⟨0, false, []⟩ 5 = (⟨0, false, []⟩, some RelayError.invalidChannel)) :=
  ⟨by decide, invalid_channel_rejected busOK ⟨0, false, []⟩ 5 (by decide)⟩

/-! ## Claim C7 -/

/-- Claim C7: for every mask `m` in 0–15 and any starting object, with a
bus whose writes always succeed, `set_state m` followed by `get_state`
returns `m` (round-trip). -/
theorem set_then_get_roundtrip (s : St) (m : Nat) (hm : m ≤ 15) :
    get_state (set_state busOK s m).1 = m := by
  simp [set_state_fst, get_state]

/-- Witness for `set_then_get_roundtrip` at a concrete input. -/
theorem set_then_get_roundtrip_witness :
    (9 : Nat) ≤ 15 ∧ get_state (set_state busOK ⟨0, false, []⟩ 9).1 = 9 :=
  ⟨by decide, set_then_get_roundtrip ⟨0, false, []⟩ 9 (by decide)⟩

/-! ## Claim C8 -/

/-- Claim C8: for every channel id `c` in `{1,2,3,4}` and every starting
mask `m` in 0–15, toggling the channel twice (with an always-succeeding
bus) returns the mask to `m`: `switch` is an involution on the state. -/
theorem toggle_twice_involution (m : Nat) (hm : m ≤ 15) (p : Bool) (w : List Nat)
    (c : Nat) (hc : c ∈ ALLOWED_IDS) :
    get_state (switch busOK (switch busOK ⟨m, p, w⟩ c).1 c).1 = m := by
  fin_cases hc <;>
    simp [switch, ALLOWED_IDS, set_state_fst, get_state, Nat.xor_cancel_right]

/-- Witness for `toggle_twice_involution` at a concrete input. -/
theorem toggle_twice_involution_witness :
    (5 : Nat) ≤ 15 ∧ 2 ∈ ALLOWED_IDS ∧
    get_state (switch busOK (switch busOK ⟨5, false, []⟩ 2).1 2).1 = 5 :=
  ⟨by decide, by decide, toggle_twice_involution 5 (by decide) false [] 2 (by decide)⟩

/-! ## Claim C9 -/

/-- Claim C9: for every channel id `c` in `{1,2,3,4}` and every starting
mask `m` in 0–15, `turn_on c` is idempotent (with an always-succeeding
bus): applying it twice yields the same mask as applying it once. -/
theorem turn_on_idempotent (m : Nat) (hm : m ≤ 15) (p : Bool) (w : List Nat)
    (c : Nat) (hc : c ∈ ALLOWED_IDS) :
    get_state (turn_on busOK (turn_on busOK ⟨m, p, w⟩ c).1 c).1 =
      get_state (turn_on busOK ⟨m, p, w⟩ c).1 := by
  fin_cases hc <;>
    simp [turn_on, ALLOWED_IDS, set_state_fst, get_state, Nat.or_assoc, Nat.or_self]

/-- Witness for `turn_on_idempotent` at a concrete input. -/
theorem turn_on_idempotent_witness :
    (5 : Nat) ≤ 15 ∧ 2 ∈ ALLOWED_IDS ∧
    get_state (turn_on busOK (turn_on busOK ⟨5, false, []⟩ 2).1 2).1 =
      get_state (turn_on busOK ⟨5, false, []⟩ 2).1 :=
  ⟨by decide, by decide, turn_on_idempotent 5 (by decide) false [] 2 (by decide)⟩

/-! ## Claim C10 -/

/-- Claim C10: for every mask `m` in 0–15 and every valid channel id `c`,
each of `switch`, `turn_on` and `turn_off` changes at most bit `c-1` of the
mask: every bit `j ≠ c-1` of the resulting state equals the corresponding
bit of `m`, whatever the bus does. -/
theorem channel_ops_frame (bus : Bus) (m : Nat) (hm : m ≤ 15) (p : Bool)
    (w : List Nat) (c : Nat) (hc : c ∈ ALLOWED_IDS) (j : Nat) (hj : j ≠ c - 1) :
    Nat.testBit (get_state (switch bus ⟨m, p, w⟩ c).1) j = Nat.testBit m j ∧
    Nat.testBit (get_state (turn_on bus ⟨m, p, w⟩ c).1) j = Nat.testBit m j ∧
    Nat.testBit (get_state (turn_off bus ⟨m, p, w⟩ c).1) j = Nat.testBit m j := by
  refine ⟨?_, ?_, ?_⟩ <;>
    simp [switch, turn_on, turn_off, hc, set_state_fst, get_state,
      Nat.testBit_xor, Nat.testBit_or, testBit_pyClearBit,
      Nat.testBit_two_pow_of_ne (Ne.symm hj)]

/-- Witness for `channel_ops_frame` at a concrete input. -/
theorem channel_ops_frame_witness :
    (15 : Nat) ≤ 15 ∧ 2 ∈ ALLOWED_IDS ∧ (0 : Nat) ≠ 2 - 1 ∧
    (Nat.testBit (get_state (switch busOK ⟨15, false, []⟩ 2).1) 0 = Nat.testBit 15 0 ∧
     Nat.testBit (get_state (turn_on busOK ⟨15, false, []⟩ 2).1) 0 = Nat.testBit 15 0 ∧
     Nat.testBit (get_state (turn_off busOK ⟨15, false, []⟩ 2).1) 0 = Nat.testBit 15 0) :=
  ⟨by decide, by decide, by decide,
    channel_ops_frame busOK 15 (by decide) false [] 2 (by decide) 0 (by decide)⟩

end I2CRelays
